import Mathlib

/-!
Verification of the booking core of the HOUSE-RENTALS repository.

The embedding models, as pure Lean functions over an explicit state:
  - the Booking document (backend/models/Booking.js, shipped unnamed):
    its pre-save totalAmount recomputation hook and its addPayment method;
  - the Property document fields the booking core reads
    (rentPrice, securityDeposit, availability.isAvailable, owner);
  - the booking routes (backend/routes/bookingRoutes.js):
    POST /api/bookings          -> createBooking
    PUT  /api/bookings/:id/status -> updateBookingStatus
    POST /api/bookings/:id/payment -> addPayment (delegation).

Dates are epoch milliseconds (Int), exactly what the JS code subtracts.
Money amounts are Int.
-/

/-- The status enum of the booking schema. -/
inductive BookingStatus where
  | pending
  | approved
  | rejected
  | active
  | completed
  | cancelled
  deriving DecidableEq

/-- The paymentStatus enum of the booking schema. Constructors are
capitalised; the source strings are pending, partial, paid, overdue. -/
inductive PaymentStatus where
  | Pending
  | Partial
  | Paid
  | Overdue
  deriving DecidableEq

/-- A Booking document, restricted to the fields the booking core reads or
writes. paymentHistory keeps only the amounts: the other entry fields
(method, timestamp, description, transactionId) never influence control
flow. -/
structure Booking where
  property : Nat
  renter : Nat
  owner : Nat
  startDate : Int
  endDate : Int
  monthlyRent : Int
  securityDeposit : Int
  totalAmount : Int
  status : BookingStatus
  paymentStatus : PaymentStatus
  paymentHistory : List Int
  deriving DecidableEq

/-- A Property document, restricted to the fields the booking core reads.
isAvailable stands for availability.isAvailable. -/
structure Property where
  owner : Nat
  rentPrice : Int
  securityDeposit : Int
  isAvailable : Bool
  deriving DecidableEq

/-- Math.ceil (a / b) for integers with b positive, as the JS code computes
it on exact values: the Euclidean division of -a rounds down, so negating
gives the ceiling. -/
def ceilDivInt (a b : Int) : Int := -((-a) / b)

/-- 1000 * 60 * 60 * 24 * 30 milliseconds: the divisor of the duration
computation in the pre-save hook and the durationInMonths virtual. -/
def msPerMonth : Int := 1000 * 60 * 60 * 24 * 30

/-- Milliseconds in a day. -/
def msPerDay : Int := 1000 * 60 * 60 * 24

/-- Math.ceil ((endDate - startDate) / (1000*60*60*24*30)), the month count
of the pre-save hook and of the durationInMonths virtual. -/
def durationMonths (startDate endDate : Int) : Int :=
  ceilDivInt (endDate - startDate) msPerMonth

/-- The body of the pre-save hook: totalAmount := monthlyRent * months +
securityDeposit. -/
def recomputeTotal (b : Booking) : Booking :=
  { b with totalAmount :=
      b.monthlyRent * durationMonths b.startDate b.endDate + b.securityDeposit }

/-- The isModified flags the pre-save hook tests. -/
structure ModifiedFlags where
  monthlyRent : Bool
  securityDeposit : Bool
  startDate : Bool
  endDate : Bool
  deriving DecidableEq

/-- The pre-save hook of the booking schema: recompute totalAmount exactly
when monthlyRent, securityDeposit, startDate or endDate is modified. -/
def preSaveHook (m : ModifiedFlags) (b : Booking) : Booking :=
  if m.monthlyRent || m.securityDeposit || m.startDate || m.endDate then
    recomputeTotal b
  else
    b

/-- One stored booking matches the conflict query of POST /api/bookings:
same property, status in \x7bapproved, active\x7d, and
storedStart <= requestedEnd and storedEnd >= requestedStart. -/
def conflictMatches (propertyId : Nat) (reqStart reqEnd : Int) (b : Booking) : Bool :=
  decide (b.property = propertyId) &&
  (decide (b.status = BookingStatus.approved) ||
    decide (b.status = BookingStatus.active)) &&
  decide (b.startDate ≤ reqEnd) &&
  decide (reqStart ≤ b.endDate)

/-- Booking.findOne of the conflict query: some stored booking matches. -/
def hasConflict (propertyId : Nat) (reqStart reqEnd : Int)
    (stored : List Booking) : Bool :=
  stored.any (conflictMatches propertyId reqStart reqEnd)

/-- POST /api/bookings after the property lookup succeeded: reject when the
property is unavailable, reject on a conflicting booking, otherwise build
the booking (rent and deposit copied from the property, status defaults to
pending) and save it, which runs the recomputation on the fresh document. -/
def createBooking (prop : Property) (stored : List Booking)
    (propertyId renterId : Nat) (startDate endDate : Int) : Option Booking :=
  if prop.isAvailable = false then
    none
  else if hasConflict propertyId startDate endDate stored then
    none
  else
    some (recomputeTotal
      { property := propertyId
        renter := renterId
        owner := prop.owner
        startDate := startDate
        endDate := endDate
        monthlyRent := prop.rentPrice
        securityDeposit := prop.securityDeposit
        totalAmount := 0
        status := BookingStatus.pending
        paymentStatus := PaymentStatus.Pending
        paymentHistory := [] })

/-- PUT /api/bookings/:id/status after the authorisation checks: set the
requested status on the booking, and when the requested status is approved
set the isAvailable flag of the property to false. Returns the saved
booking together with the isAvailable flag of the property after the
operation. -/
def updateBookingStatus (b : Booking) (newStatus : BookingStatus)
    (propIsAvailable : Bool) : Booking × Bool :=
  ({ b with status := newStatus },
   if newStatus = BookingStatus.approved then false else propIsAvailable)

/-- The addPayment method of the booking schema: push the entry, recompute
totalPaid over the whole history, set paymentStatus to Paid when
totalPaid >= totalAmount, else to Partial when totalPaid > 0, else leave
it unchanged. -/
def addPayment (b : Booking) (amount : Int) : Booking :=
  let hist := b.paymentHistory ++ [amount]
  let totalPaid := hist.sum
  { b with
    paymentHistory := hist
    paymentStatus :=
      if b.totalAmount ≤ totalPaid then PaymentStatus.Paid
      else if 0 < totalPaid then PaymentStatus.Partial
      else b.paymentStatus }

/-- A sequence of addPayment calls, oldest first. -/
def applyPayments (b : Booking) (amounts : List Int) : Booking :=
  amounts.foldl addPayment b

/-- Sum of the recorded payment amounts of a booking. -/
def cumPaid (b : Booking) : Int := b.paymentHistory.sum

/-- Position of a payment status in the pending -> partial -> paid ladder
of the specification. Overdue is outside the ladder and ranks lowest. -/
def rank : PaymentStatus → Nat
  | PaymentStatus.Pending => 0
  | PaymentStatus.Partial => 1
  | PaymentStatus.Paid => 2
  | PaymentStatus.Overdue => 0

/-- Epoch milliseconds of 2025-01-01T00:00:00Z. -/
def jan1 : Int := 1735689600000

/-- Epoch milliseconds of 2025-02-01T00:00:00Z. -/
def feb1 : Int := 1738368000000

/-- Epoch milliseconds of 2025-03-01T00:00:00Z. -/
def mar1 : Int := 1740787200000

/-- A property with rent 1000, deposit 500, available. -/
def availableProp : Property :=
  { owner := 3, rentPrice := 1000, securityDeposit := 500, isAvailable := true }

/-- An approved booking on property 1 for the range January to February. -/
def janBooking : Booking :=
  { property := 1, renter := 2, owner := 3, startDate := jan1, endDate := feb1
    monthlyRent := 1000, securityDeposit := 500, totalAmount := 1500
    status := BookingStatus.approved, paymentStatus := PaymentStatus.Pending
    paymentHistory := [] }

/-- A pending booking with totalAmount 100 and an empty ledger. -/
def freshBooking : Booking :=
  { property := 1, renter := 2, owner := 3, startDate := 0, endDate := msPerMonth
    monthlyRent := 1000, securityDeposit := 500, totalAmount := 100
    status := BookingStatus.pending, paymentStatus := PaymentStatus.Pending
    paymentHistory := [] }

/-- The booking createBooking persists for availableProp, renter 42,
range [0, msPerMonth). -/
def sampleCreated : Booking :=
  { property := 1, renter := 42, owner := 3, startDate := 0, endDate := msPerMonth
    monthlyRent := 1000, securityDeposit := 500, totalAmount := 1500
    status := BookingStatus.pending, paymentStatus := PaymentStatus.Pending
    paymentHistory := [] }

/-- Invariant of the payment ledger maintained by nonnegative payments:
the recorded amounts sum to a nonnegative value, and a Paid status is
backed by a cumulative sum reaching totalAmount. -/
def payInv (b : Booking) : Prop :=
  (b.paymentStatus = PaymentStatus.Paid → b.totalAmount ≤ cumPaid b) ∧
  0 ≤ cumPaid b

/-! ## Helper lemmas -/

theorem one_le_durationMonths {s e : Int} (h : s < e) : 1 ≤ durationMonths s e := by
  have hM : (0 : Int) < msPerMonth := by norm_num [msPerMonth]
  have hn : -(e - s) ≤ -1 := by omega
  have h2 : (-(e - s)) / msPerMonth ≤ (-1 : Int) / msPerMonth :=
    Int.ediv_le_ediv hM hn
  have h3 : (-1 : Int) / msPerMonth = -1 := by decide
  simp only [durationMonths, ceilDivInt]
  omega

/-! ## Claims -/

/-- C8: only stored bookings on the same property with status approved or
active participate in the conflict check; any other status never blocks,
and the empty candidate set yields no conflict. -/
theorem conflict_only_approved_active (propertyId : Nat) (reqStart reqEnd : Int)
    (stored : List Booking) :
    hasConflict propertyId reqStart reqEnd [] = false ∧
    (hasConflict propertyId reqStart reqEnd stored = true ↔
      ∃ b ∈ stored, b.property = propertyId ∧
        (b.status = BookingStatus.approved ∨ b.status = BookingStatus.active) ∧
        b.startDate ≤ reqEnd ∧ reqStart ≤ b.endDate) := by
  refine ⟨rfl, ?_⟩
  simp only [hasConflict, conflictMatches, List.any_eq_true, Bool.and_eq_true,
    Bool.or_eq_true, decide_eq_true_eq]
  constructor
  · rintro ⟨b, hb, ⟨⟨hp, hs⟩, h1⟩, h2⟩
    exact ⟨b, hb, hp, hs, h1, h2⟩
  · rintro ⟨b, hb, hp, hs, h1, h2⟩
    exact ⟨b, hb, ⟨⟨hp, hs⟩, h1⟩, h2⟩

/-- C1 counterexample: the range February to March touches the approved
booking January to February only at the endpoint, yet the code reports a
conflict (its query compares with less-or-equal on both sides) and the
creation of the touching booking fails. The strict-overlap predicate of
the claim is false at this input. -/
theorem conflict_touching_endpoint_cex :
    hasConflict 1 feb1 mar1 [janBooking] = true ∧
    ¬(jan1 < mar1 ∧ feb1 < feb1) ∧
    createBooking availableProp [janBooking] 1 42 feb1 mar1 = none := by
  decide

/-- C1 amended: for a single stored booking on the requested property with
status approved or active, the conflict check reports a conflict iff
storedStart ≤ requestedEnd and requestedStart ≤ storedEnd: closed-interval
overlap, so ranges that merely touch at an endpoint DO conflict. -/
theorem conflict_closed_interval (b : Booking) (reqStart reqEnd : Int)
    (hst : b.status = BookingStatus.approved ∨ b.status = BookingStatus.active) :
    hasConflict b.property reqStart reqEnd [b] = true ↔
      (b.startDate ≤ reqEnd ∧ reqStart ≤ b.endDate) := by
  simp [hasConflict, conflictMatches]
  tauto

/-- Witness for the amended C1 at the concrete touching ranges. -/
theorem conflict_closed_interval_witness :
    hasConflict janBooking.property feb1 mar1 [janBooking] = true ↔
      (janBooking.startDate ≤ mar1 ∧ feb1 ≤ janBooking.endDate) :=
  conflict_closed_interval janBooking feb1 mar1 (Or.inl rfl)

/-- C2 counterexample: requesting status completed on a pending booking
succeeds and changes the status; no IllegalTransition guard exists. -/
theorem status_update_pending_completed_cex :
    freshBooking.status = BookingStatus.pending ∧
    (updateBookingStatus freshBooking BookingStatus.completed true).1.status =
      BookingStatus.completed ∧
    BookingStatus.completed ≠ BookingStatus.pending := by
  decide

/-- C2 amended: the status-update operation performs no transition
validation: it unconditionally sets the booking status to any requested
enum status, whatever the current status, and leaves the rest of the
booking unchanged. -/
theorem status_update_unvalidated (b : Booking) (newStatus : BookingStatus)
    (avail : Bool) :
    (updateBookingStatus b newStatus avail).1.status = newStatus ∧
    (updateBookingStatus b newStatus avail).1.paymentHistory = b.paymentHistory ∧
    (updateBookingStatus b newStatus avail).1.totalAmount = b.totalAmount :=
  ⟨rfl, rfl, rfl⟩

/-- C4 counterexample: cancelling the approved January booking while the
property is unavailable leaves isAvailable false; the code never restores
it to true. -/
theorem cancel_keeps_unavailable_cex :
    janBooking.status = BookingStatus.approved ∧
    (updateBookingStatus janBooking BookingStatus.cancelled false).2 = false ∧
    (updateBookingStatus janBooking BookingStatus.rejected false).2 = false := by
  decide

/-- C4 amended: a transition into approved sets the isAvailable flag of the
property to false; every other requested status, cancellation and
rejection included, leaves the flag unchanged, so availability is never
restored by a status update. -/
theorem availability_only_on_approve (b : Booking) (newStatus : BookingStatus)
    (avail : Bool) :
    (updateBookingStatus b BookingStatus.approved avail).2 = false ∧
    (newStatus ≠ BookingStatus.approved →
      (updateBookingStatus b newStatus avail).2 = avail) := by
  refine ⟨rfl, fun h => ?_⟩
  simp [updateBookingStatus, h]

/-- Witness for the amended C4 at a concrete cancellation. -/
theorem availability_only_on_approve_witness :
    (updateBookingStatus janBooking BookingStatus.approved false).2 = false ∧
    (updateBookingStatus janBooking BookingStatus.cancelled false).2 = false :=
  ⟨(availability_only_on_approve janBooking BookingStatus.cancelled false).1,
   (availability_only_on_approve janBooking BookingStatus.cancelled false).2
     (by decide)⟩

/-- C6 counterexample: addPayment appends a negative amount instead of
rejecting it; the payment history changes. -/
theorem addPayment_negative_cex :
    (addPayment freshBooking (-5)).paymentHistory = [-5] ∧
    freshBooking.paymentHistory = [] := by
  decide

/-- C6 amended: addPayment performs no validation of the amount: every
entry, a non-positive amount included, is appended to the payment
history. -/
theorem addPayment_no_validation (b : Booking) (amount : Int) :
    (addPayment b amount).paymentHistory = b.paymentHistory ++ [amount] :=
  rfl

/-- C9 counterexample: a creation request with startDate = endDate = 5 on
an available property with no stored bookings succeeds and persists a
booking violating start < end; no InvalidDateRange check exists. -/
theorem create_degenerate_range_cex :
    createBooking availableProp [] 1 42 5 5 = some
      { property := 1, renter := 42, owner := 3, startDate := 5, endDate := 5
        monthlyRent := 1000, securityDeposit := 500, totalAmount := 500
        status := BookingStatus.pending, paymentStatus := PaymentStatus.Pending
        paymentHistory := [] } := by
  decide

/-- C9 amended: booking creation performs no date-range validation: when
the property is available and no stored booking conflicts, a request whose
end does not exceed its start still persists a pending booking carrying
exactly those dates. -/
theorem create_no_date_validation (prop : Property) (stored : List Booking)
    (propertyId renterId : Nat) (startDate endDate : Int)
    (hav : prop.isAvailable = true)
    (hconf : hasConflict propertyId startDate endDate stored = false)
    (_hdeg : endDate ≤ startDate) :
    ∃ b, createBooking prop stored propertyId renterId startDate endDate = some b ∧
      b.startDate = startDate ∧ b.endDate = endDate ∧
      b.status = BookingStatus.pending := by
  refine ⟨recomputeTotal
    { property := propertyId, renter := renterId, owner := prop.owner
      startDate := startDate, endDate := endDate
      monthlyRent := prop.rentPrice, securityDeposit := prop.securityDeposit
      totalAmount := 0, status := BookingStatus.pending
      paymentStatus := PaymentStatus.Pending, paymentHistory := [] },
    ?_, rfl, rfl, rfl⟩
  simp [createBooking, hav, hconf]

/-- Witness for the amended C9 at the degenerate range [5, 5]. -/
theorem create_no_date_validation_witness :
    ∃ b, createBooking availableProp [] 1 42 5 5 = some b ∧
      b.startDate = 5 ∧ b.endDate = 5 ∧ b.status = BookingStatus.pending :=
  create_no_date_validation availableProp [] 1 42 5 5 rfl rfl (by decide)

/-- Cumulative sum after addPayment is the previous sum plus the new
amount. -/
theorem cumPaid_addPayment (b : Booking) (a : Int) :
    cumPaid (addPayment b a) = cumPaid b + a := by
  simp [cumPaid, addPayment]

/-- The payment status addPayment writes, phrased on the cumulative sum. -/
theorem addPayment_paymentStatus (b : Booking) (a : Int) :
    (addPayment b a).paymentStatus =
      if b.totalAmount ≤ cumPaid b + a then PaymentStatus.Paid
      else if 0 < cumPaid b + a then PaymentStatus.Partial
      else b.paymentStatus := by
  simp [addPayment, cumPaid]

/-- A nonnegative payment preserves the ledger invariant. -/
theorem payInv_addPayment {b : Booking} {a : Int} (ha : 0 ≤ a)
    (h : payInv b) : payInv (addPayment b a) := by
  obtain ⟨hpaid, hnn⟩ := h
  have hts : (addPayment b a).totalAmount = b.totalAmount := rfl
  have hcs := cumPaid_addPayment b a
  have hps := addPayment_paymentStatus b a
  constructor
  · intro hp
    rw [hps] at hp
    rw [hts, hcs]
    split_ifs at hp with h1 h2
    · exact h1
    · have := hpaid hp
      omega
  · rw [hcs]
    omega

/-- A nonnegative payment never lowers the rank of the payment status,
given the ledger invariant. -/
theorem rank_addPayment {b : Booking} {a : Int} (ha : 0 ≤ a)
    (h : payInv b) :
    rank b.paymentStatus ≤ rank (addPayment b a).paymentStatus := by
  obtain ⟨hpaid, hnn⟩ := h
  rw [addPayment_paymentStatus]
  split_ifs with h1 h2
  · cases b.paymentStatus <;> simp only [rank] <;> omega
  · cases hps : b.paymentStatus with
    | Pending => simp only [rank]; omega
    | Partial => exact le_refl _
    | Paid =>
        have := hpaid hps
        simp only [rank]
        omega
    | Overdue => simp only [rank]; omega
  · exact le_refl _

/-- Nonnegative payment sequences preserve the ledger invariant. -/
theorem payInv_applyPayments {b : Booking} {amounts : List Int}
    (hall : ∀ x ∈ amounts, 0 ≤ x) (h : payInv b) :
    payInv (applyPayments b amounts) := by
  induction amounts generalizing b with
  | nil => exact h
  | cons a l ih =>
    have ha : 0 ≤ a := hall a (by simp)
    have hl : ∀ x ∈ l, 0 ≤ x := fun x hx => hall x (by simp [hx])
    exact ih hl (payInv_addPayment ha h)

/-- C3: whenever rent, deposit or a date is modified, the pre-save hook
recomputes totalAmount = monthlyRent * ceil(days / 30) + securityDeposit;
the month count is at least 1 whenever end exceeds start, a span of
exactly 30 days counts 1 month and a span of 31 days counts 2. -/
theorem totalAmount_formula (m : ModifiedFlags) (b : Booking)
    (hmod : m.monthlyRent = true ∨ m.securityDeposit = true ∨
      m.startDate = true ∨ m.endDate = true)
    (hrange : b.startDate < b.endDate) :
    (preSaveHook m b).totalAmount =
      b.monthlyRent * durationMonths b.startDate b.endDate +
        b.securityDeposit ∧
    1 ≤ durationMonths b.startDate b.endDate ∧
    (b.endDate - b.startDate = 30 * msPerDay →
      durationMonths b.startDate b.endDate = 1) ∧
    (b.endDate - b.startDate = 31 * msPerDay →
      durationMonths b.startDate b.endDate = 2) := by
  refine ⟨?_, one_le_durationMonths hrange, fun h => ?_, fun h => ?_⟩
  · have hcond :
        (m.monthlyRent || m.securityDeposit || m.startDate || m.endDate) = true := by
      rcases hmod with h | h | h | h <;> simp [h]
    simp [preSaveHook, hcond, recomputeTotal]
  · show ceilDivInt (b.endDate - b.startDate) msPerMonth = 1
    rw [h]
    decide
  · show ceilDivInt (b.endDate - b.startDate) msPerMonth = 2
    rw [h]
    decide

/-- Witness for C3 on a fresh 30-day booking with every flag modified. -/
theorem totalAmount_formula_witness :
    (preSaveHook ⟨true, true, true, true⟩ sampleCreated).totalAmount =
      sampleCreated.monthlyRent *
        durationMonths sampleCreated.startDate sampleCreated.endDate +
      sampleCreated.securityDeposit :=
  (totalAmount_formula ⟨true, true, true, true⟩ sampleCreated (Or.inl rfl)
    (by decide)).1

/-- C5 counterexample: paying 100 and then -100 on a booking with
totalAmount 100 brings the cumulative sum to 0, yet the payment status
stays Paid instead of returning to Pending: the status is not a pure
function of the cumulative sum. -/
theorem paymentStatus_zero_cum_cex :
    cumPaid (addPayment (addPayment freshBooking 100) (-100)) = 0 ∧
    (addPayment (addPayment freshBooking 100) (-100)).totalAmount = 100 ∧
    (addPayment (addPayment freshBooking 100) (-100)).paymentStatus =
      PaymentStatus.Paid ∧
    PaymentStatus.Paid ≠ PaymentStatus.Pending := by
  decide

/-- C5 amended: after addPayment the payment status is Paid when the
cumulative sum reaches totalAmount, Partial when it is positive but below
totalAmount, and otherwise (cumulative sum not positive) it keeps its
previous value instead of being reset to Pending; totalAmount itself is
untouched. -/
theorem paymentStatus_after_addPayment (b : Booking) (amount : Int) :
    (addPayment b amount).totalAmount = b.totalAmount ∧
    (b.totalAmount ≤ cumPaid (addPayment b amount) →
      (addPayment b amount).paymentStatus = PaymentStatus.Paid) ∧
    (cumPaid (addPayment b amount) < b.totalAmount →
      0 < cumPaid (addPayment b amount) →
      (addPayment b amount).paymentStatus = PaymentStatus.Partial) ∧
    (cumPaid (addPayment b amount) < b.totalAmount →
      cumPaid (addPayment b amount) ≤ 0 →
      (addPayment b amount).paymentStatus = b.paymentStatus) := by
  have hcs := cumPaid_addPayment b amount
  have hps := addPayment_paymentStatus b amount
  rw [hcs] at *
  refine ⟨rfl, fun h => ?_, fun h1 h2 => ?_, fun h1 h2 => ?_⟩
  · rw [hps, if_pos h]
  · rw [hps, if_neg (not_le.mpr h1), if_pos h2]
  · rw [hps, if_neg (not_le.mpr h1), if_neg (not_lt.mpr h2)]

/-- Witness for the amended C5: a payment of 50 against total 100 yields
status Partial. -/
theorem paymentStatus_after_addPayment_witness :
    (addPayment freshBooking 50).paymentStatus = PaymentStatus.Partial :=
  (paymentStatus_after_addPayment freshBooking 50).2.2.1 (by decide) (by decide)

/-- C7 counterexample: on a booking with totalAmount 100, paying 100 and
then appending a -50 entry regresses the payment status from Paid back to
Partial. -/
theorem paymentStatus_regression_cex :
    rank (applyPayments freshBooking [100]).paymentStatus = 2 ∧
    rank (applyPayments freshBooking [100, -50]).paymentStatus = 1 := by
  decide

/-- C7 amended: starting from a booking with an empty ledger and Pending
payment status, appending any further nonnegative payment to a sequence of
nonnegative payments never lowers the payment status in the
Pending -> Partial -> Paid ladder. -/
theorem paymentStatus_monotone (b : Booking) (amounts : List Int) (a : Int)
    (hhist : b.paymentHistory = [])
    (hps : b.paymentStatus = PaymentStatus.Pending)
    (hall : ∀ x ∈ amounts, 0 ≤ x) (ha : 0 ≤ a) :
    rank (applyPayments b amounts).paymentStatus ≤
      rank (applyPayments b (amounts ++ [a])).paymentStatus := by
  have hbase : payInv b := by
    constructor
    · intro hp
      rw [hps] at hp
      exact absurd hp (by decide)
    · simp [cumPaid, hhist]
  have hinv : payInv (applyPayments b amounts) :=
    payInv_applyPayments hall hbase
  have happ : applyPayments b (amounts ++ [a]) =
      addPayment (applyPayments b amounts) a := by
    simp [applyPayments, List.foldl_append]
  rw [happ]
  exact rank_addPayment ha hinv

/-- Witness for the amended C7: paying 50 and then 60 against total 100
moves the status up the ladder. -/
theorem paymentStatus_monotone_witness :
    rank (applyPayments freshBooking [50]).paymentStatus ≤
      rank (applyPayments freshBooking ([50] ++ [60])).paymentStatus :=
  paymentStatus_monotone freshBooking [50] 60 rfl rfl (by decide) (by decide)

/-- C10: a successful creation snapshots the pricing of the property:
the persisted booking carries the rentPrice and securityDeposit the
property had at creation time, totalAmount is computed from exactly those
values, and neither a status update nor a payment ever rewrites rent,
deposit or totalAmount, so later changes to the property record leave
them unchanged. -/
theorem booking_snapshots_pricing (prop : Property) (stored : List Booking)
    (propertyId renterId : Nat) (startDate endDate : Int) (b : Booking)
    (h : createBooking prop stored propertyId renterId startDate endDate =
      some b) :
    b.monthlyRent = prop.rentPrice ∧
    b.securityDeposit = prop.securityDeposit ∧
    b.totalAmount = prop.rentPrice * durationMonths startDate endDate +
      prop.securityDeposit ∧
    (∀ newStatus avail,
      (updateBookingStatus b newStatus avail).1.monthlyRent = b.monthlyRent ∧
      (updateBookingStatus b newStatus avail).1.securityDeposit =
        b.securityDeposit ∧
      (updateBookingStatus b newStatus avail).1.totalAmount = b.totalAmount) ∧
    (∀ amount,
      (addPayment b amount).monthlyRent = b.monthlyRent ∧
      (addPayment b amount).securityDeposit = b.securityDeposit ∧
      (addPayment b amount).totalAmount = b.totalAmount) := by
  unfold createBooking at h
  split at h
  · exact absurd h (by simp)
  · split at h
    · exact absurd h (by simp)
    · injection h with h'
      subst h'
      exact ⟨rfl, rfl, rfl, fun ns av => ⟨rfl, rfl, rfl⟩,
        fun a => ⟨rfl, rfl, rfl⟩⟩

/-- Witness for C10 at a concrete successful creation. -/
theorem booking_snapshots_pricing_witness :
    sampleCreated.monthlyRent = availableProp.rentPrice ∧
    sampleCreated.securityDeposit = availableProp.securityDeposit :=
  ⟨(booking_snapshots_pricing availableProp [] 1 42 0 msPerMonth
      sampleCreated (by decide)).1,
   (booking_snapshots_pricing availableProp [] 1 42 0 msPerMonth
      sampleCreated (by decide)).2.1⟩
